import Mathlib

/-!
# Superlists error hiding (lists/static/list.js) and its test helpers

A shallow embedding of `lists/static/list.js` and `lists/static/tests/test_helper.js`.

The browser platform the script runs on is modelled as far as the script uses it:

* a document is the list of its elements in document order; an element reference is
  the position of the element in that list;
* `querySelectorAll` returns the references of the matching elements in document order;
* `addEventListener` appends a listener unless a listener with the same type and
  callback is already in the element's list (DOM Standard, "add an event listener");
* `dispatchEvent` runs the listeners of the target and then, since the events of
  `triggerEvent` bubble, the listeners of its ancestors; an exception thrown by a
  listener is reported to the host and is not propagated to the dispatcher.

Listener lists hold the listeners this script registers; every listener of the script
uses the default (non capturing) phase.
-/

namespace Superlists

/-! ## Data model -/

/-- The exceptions the script can raise: a property access or a method call on
`undefined` raises a `TypeError`. -/
inductive JSError where
  | TypeError
  deriving DecidableEq, Repr

/-- The functions of `list.js` that are registered as event listeners. -/
inductive Callback where
  | hide_error_message
  deriving DecidableEq, Repr

/-- An entry of an element's event listener list. -/
structure Listener where
  type : String
  callback : Callback
  deriving DecidableEq, Repr

/-- The inline style of an element: the `display` property the script writes and the
remaining declarations. -/
structure Style where
  display : String
  rest : List (String × String)
  deriving DecidableEq, Repr

/-- An element of the document. `parent` is the reference of the parent element. -/
structure Element where
  tag : String
  name : Option String
  classList : List String
  style : Style
  listeners : List Listener
  parent : Option Nat
  deriving DecidableEq, Repr

/-- The live document: its elements in document order and the errors that event
dispatch has reported to the host's error channel. -/
structure Document where
  elements : List Element
  reported : List JSError
  deriving DecidableEq, Repr

/-- The outcome of running a statement sequence: the document as it is when the run
ends, and the exception that ended it, if any. -/
structure Completion where
  document : Document
  thrown : Option JSError
  deriving DecidableEq, Repr

/-- The two shapes of selector the script uses. -/
inductive Selector where
  | cls (c : String)
  | tagAttrName (tag : String) (value : String)
  deriving DecidableEq, Repr

/-- The selector `.has-error`. -/
def hasErrorSelector : Selector := Selector.cls "has-error"

/-- The selector `input[name="text"]`. -/
def inputSelector : Selector := Selector.tagAttrName "input" "text"

/-- Whether an element matches a selector. -/
def Selector.matchesElem : Selector → Element → Bool
  | Selector.cls c, e => decide (c ∈ e.classList)
  | Selector.tagAttrName t v, e => decide (e.tag = t) && decide (e.name = some v)

/-! ## Platform operations -/

/-- References of the elements of `es` that match, the first element of `es` having
reference `i`. -/
def matchingFrom (sel : Selector) : Nat → List Element → List Nat
  | _, [] => []
  | i, e :: es =>
    if sel.matchesElem e then i :: matchingFrom sel (i + 1) es
    else matchingFrom sel (i + 1) es

/-- `document.querySelectorAll(sel)`: the matching elements in document order. -/
def querySelectorAll (sel : Selector) (d : Document) : List Nat :=
  matchingFrom sel 0 d.elements

/-- Replace the element with reference `i` by its image under `f`. -/
def updateElem (f : Element → Element) (i : Nat) (d : Document) : Document :=
  match d.elements[i]? with
  | some e => { d with elements := d.elements.set i (f e) }
  | none => d

/-- The assignment `elem.style.display = v`. -/
def setDisplay (i : Nat) (v : String) (d : Document) : Document :=
  updateElem (fun e => { e with style := { e.style with display := v } }) i d

/-- The listener list of the element with reference `i`. -/
def listenersOf (d : Document) (i : Nat) : List Listener :=
  match d.elements[i]? with
  | some e => e.listeners
  | none => []

/-- The value of `elem.style.display` of the element with reference `i`. -/
def displayOf (d : Document) (i : Nat) : Option String :=
  (d.elements[i]?).map (fun e => e.style.display)

/-- The effect of one `addEventListener(type, cb)` call on the element it is called on:
the listener is appended unless a listener with this type and callback is present. -/
def addTo (type : String) (cb : Callback) (e : Element) : Element :=
  if (Listener.mk type cb) ∈ e.listeners then e
  else { e with listeners := e.listeners ++ [Listener.mk type cb] }

/-- `elem.addEventListener(type, cb)` on the element with reference `i`. -/
def addEventListener (i : Nat) (type : String) (cb : Callback) (d : Document) : Document :=
  updateElem (addTo type cb) i d

/-! ## list.js -/

/-- The function `hide_error_message` of list.js:
`document.querySelectorAll('.has-error')[0].style.display = "none"`. -/
def hide_error_message (d : Document) : Completion :=
  match (querySelectorAll hasErrorSelector d)[0]? with
  | some i => ⟨setDisplay i "none" d, none⟩
  | none => ⟨d, some JSError.TypeError⟩

/-- The function `hideErrorMessageOnEvent` of list.js:
`document.querySelectorAll('input[name="text"]')[0].addEventListener(event, hide_error_message)`. -/
def hideErrorMessageOnEvent (event : String) (d : Document) : Completion :=
  match (querySelectorAll inputSelector d)[0]? with
  | some i => ⟨addEventListener i event Callback.hide_error_message d, none⟩
  | none => ⟨d, some JSError.TypeError⟩

/-- The array method `forEach`: the callback runs on each item in order; an exception
ends the loop and keeps the changes made so far. -/
def forEach (f : String → Document → Completion) : List String → Document → Completion
  | [], d => ⟨d, none⟩
  | x :: xs, d =>
    match f x d with
    | ⟨d', none⟩ => forEach f xs d'
    | ⟨d', some err⟩ => ⟨d', some err⟩

/-- The constant `events_that_hide` of `window.Superlists.initialize`. -/
def events_that_hide : List String := ["click", "keypress"]

/-- The function `window.Superlists.initialize` of list.js. -/
def Superlists_init (d : Document) : Completion :=
  forEach (fun event => hideErrorMessageOnEvent event) events_that_hide d

/-- The namespace object `window.Superlists`. -/
structure Namespace where
  hasInit : Bool
  deriving DecidableEq, Repr

/-- The global object: the document and the property `Superlists`. -/
structure Window where
  document : Document
  Superlists : Option Namespace
  deriving DecidableEq, Repr

/-- Loading list.js: `window.Superlists = {}`, then the assignment of the function to
`window.Superlists.initialize`; the function declarations run no code. -/
def loadScript (w : Window) : Window :=
  let w1 : Window := { w with Superlists := some ⟨false⟩ }
  { w1 with Superlists := w1.Superlists.map (fun _ => ⟨true⟩) }

/-! ## Event dispatch -/

/-- Running a callback of the script. -/
def Callback.run : Callback → Document → Completion
  | Callback.hide_error_message, d => Superlists.hide_error_message d

/-- One listener invocation during dispatch: an exception is reported, not propagated. -/
def invoke (cb : Callback) (d : Document) : Document :=
  match cb.run d with
  | ⟨d', none⟩ => d'
  | ⟨d', some err⟩ => { d' with reported := d'.reported ++ [err] }

/-- Run, in order, the listeners of `ls` registered for the event type `ev`. -/
def runListeners (ev : String) : List Listener → Document → Document
  | [], d => d
  | l :: ls, d => runListeners ev ls (if l.type = ev then invoke l.callback d else d)

/-- The event path from the element `i` upwards, at most `fuel` elements long. -/
def eventPath (d : Document) : Nat → Nat → List Nat
  | 0, _ => []
  | fuel + 1, i =>
    i :: (match (d.elements[i]?).bind (fun e => e.parent) with
          | some p => eventPath d fuel p
          | none => [])

/-- Visit the elements of the path in order and run the listeners of each. -/
def dispatchOn (ev : String) : List Nat → Document → Document
  | [], d => d
  | i :: rest, d => dispatchOn ev rest (runListeners ev (listenersOf d i) d)

/-- `target.dispatchEvent(event)` for a bubbling event of type `ev`. A path in a
document has no more elements than the document. -/
def dispatchEvent (ev : String) (target : Nat) (d : Document) : Document :=
  dispatchOn ev (eventPath d d.elements.length target) d

/-! ## tests/test_helper.js -/

/-- The function `getErrorElement` of test_helper.js; `none` is `undefined`. -/
def getErrorElement (d : Document) : Option Nat :=
  (querySelectorAll hasErrorSelector d)[0]?

/-- The function `getInputElement` of test_helper.js; `none` is `undefined`. -/
def getInputElement (d : Document) : Option Nat :=
  (querySelectorAll inputSelector d)[0]?

/-- The function `triggerEvent` of test_helper.js: a bubbling, not cancelable event of
the given type dispatched on the element; `element.dispatchEvent` on `undefined`
raises. -/
def triggerEvent (eventType : String) (element : Option Nat) (d : Document) : Completion :=
  match element with
  | some i => ⟨dispatchEvent eventType i d, none⟩
  | none => ⟨d, some JSError.TypeError⟩

/-- A client rectangle, in layout units. -/
structure Rect where
  width : Int
  height : Int
  deriving DecidableEq, Repr

/-- A rectangle with no area. -/
def Rect.isEmpty (r : Rect) : Bool := decide (r.width = 0) || decide (r.height = 0)

/-- What the layout engine reports for an element: `offsetWidth`, `offsetHeight` and
the list returned by `getClientRects()`. -/
structure Rendered where
  offsetWidth : Int
  offsetHeight : Int
  clientRects : List Rect
  deriving DecidableEq, Repr

/-- The function `isVisible` of test_helper.js:
`!!(elem.offsetWidth || elem.offsetHeight || elem.getClientRects().length)`.
`layout` gives the rendering of each element; reading a property of `undefined`
raises. -/
def isVisible (layout : Nat → Rendered) (elem : Option Nat) : Except JSError Bool :=
  match elem with
  | none => Except.error JSError.TypeError
  | some i =>
    Except.ok (decide ((layout i).offsetWidth ≠ 0) || decide ((layout i).offsetHeight ≠ 0)
      || decide ((layout i).clientRects.length ≠ 0))

/-- The visibility condition in the words of the specification: non-zero rendered
width, non-zero rendered height, or at least one non-empty bounding rectangle. -/
def isVisible_spec (r : Rendered) : Bool :=
  decide (r.offsetWidth ≠ 0) || decide (r.offsetHeight ≠ 0)
    || r.clientRects.any (fun c => !c.isEmpty)

/-! ## Sample documents -/

/-- An element with no attributes, style `display: block`, no listeners. -/
def blankElem (tag : String) : Element :=
  ⟨tag, none, [], ⟨"block", []⟩, [], none⟩

/-- The fixture of the test page: a form holding `<input name="text">` and
`<div class="has-error">`. -/
def fixture : Document :=
  ⟨[blankElem "form",
    { blankElem "input" with name := some "text", parent := some 0 },
    { blankElem "div" with classList := ["has-error"], parent := some 0 }], []⟩

/-- A document with two error elements, the second one shown inline. -/
def twoErrors : Document :=
  ⟨[{ blankElem "div" with classList := ["has-error"] },
    { blankElem "span" with classList := ["has-error"], style := ⟨"inline", []⟩ }], []⟩

/-- A document with neither an input nor an error element. -/
def emptyPage : Document := ⟨[blankElem "p"], []⟩

/-! ## Queries and updates -/

theorem matchingFrom_set (sel : Selector) (e' : Element) :
    ∀ (l : List Element) (k i : Nat) (e : Element), l[i]? = some e →
      sel.matchesElem e' = sel.matchesElem e →
      matchingFrom sel k (l.set i e') = matchingFrom sel k l := by
  intro l
  induction l with
  | nil => intro k i e h _; simp at h
  | cons a as ih =>
    intro k i e h hm
    cases i with
    | zero =>
      simp at h
      subst h
      simp [matchingFrom, hm]
    | succ n =>
      simp at h
      simp [matchingFrom, ih (k + 1) n e h hm]

theorem querySelectorAll_updateElem (sel : Selector) (f : Element → Element)
    (hf : ∀ e, sel.matchesElem (f e) = sel.matchesElem e) (i : Nat) (d : Document) :
    querySelectorAll sel (updateElem f i d) = querySelectorAll sel d := by
  unfold querySelectorAll updateElem
  cases h : d.elements[i]? with
  | none => rfl
  | some e => exact matchingFrom_set sel (f e) d.elements 0 i e h (hf e)

theorem matchingFrom_head (sel : Selector) :
    ∀ (l : List Element) (k i : Nat), (matchingFrom sel k l)[0]? = some i →
      k ≤ i ∧ (∃ e, l[i - k]? = some e ∧ sel.matchesElem e = true) ∧
        ∀ j, j < i - k → ∀ e, l[j]? = some e → sel.matchesElem e = false := by
  intro l
  induction l with
  | nil => intro k i h; simp [matchingFrom] at h
  | cons a as ih =>
    intro k i h
    unfold matchingFrom at h
    by_cases hm : sel.matchesElem a = true
    · simp [hm] at h
      subst h
      simp [hm]
    · simp [hm] at h
      obtain ⟨hk, ⟨e, he, hme⟩, hlt⟩ := ih (k + 1) i h
      have hik : i - k = (i - (k + 1)) + 1 := by omega
      refine ⟨by omega, ⟨e, ?_, hme⟩, ?_⟩
      · rw [hik]; simpa using he
      · intro j hj e' he'
        cases j with
        | zero => simp at he'; subst he'; simpa using hm
        | succ n =>
          simp at he'
          exact hlt n (by omega) e' he'

theorem matchingFrom_nil_iff (sel : Selector) :
    ∀ (l : List Element) (k : Nat),
      matchingFrom sel k l = [] ↔ ∀ e ∈ l, sel.matchesElem e = false := by
  intro l
  induction l with
  | nil => intro k; simp [matchingFrom]
  | cons a as ih =>
    intro k
    unfold matchingFrom
    by_cases hm : sel.matchesElem a = true
    · simp [hm]
    · simp [hm, ih (k + 1)]

theorem updateElem_updateElem (f g : Element → Element) (i : Nat) (d : Document) :
    updateElem f i (updateElem g i d) = updateElem (fun e => f (g e)) i d := by
  unfold updateElem
  cases h : d.elements[i]? with
  | none => simp [h]
  | some e =>
    have hi : i < d.elements.length := by
      by_contra hc
      have : d.elements[i]? = none := List.getElem?_eq_none (by omega)
      rw [this] at h; cases h
    simp [h, hi]

/-! ## The script's functions in closed form -/

theorem lt_length_of_getElem? {l : List Element} {i : Nat} {e : Element}
    (h : l[i]? = some e) : i < l.length := by
  by_contra hc
  have : l[i]? = none := List.getElem?_eq_none (by omega)
  rw [this] at h; cases h

theorem querySelectorAll_setDisplay (sel : Selector) (i : Nat) (v : String) (d : Document) :
    querySelectorAll sel (setDisplay i v d) = querySelectorAll sel d := by
  apply querySelectorAll_updateElem
  intro e
  cases sel <;> rfl

theorem querySelectorAll_addEventListener (sel : Selector) (i : Nat) (t : String)
    (cb : Callback) (d : Document) :
    querySelectorAll sel (addEventListener i t cb d) = querySelectorAll sel d := by
  apply querySelectorAll_updateElem
  intro e
  unfold addTo
  by_cases h : Listener.mk t cb ∈ e.listeners
  · simp [h]
  · simp only [h, if_false]
    cases sel <;> rfl

theorem setDisplay_setDisplay (i : Nat) (v : String) (d : Document) :
    setDisplay i v (setDisplay i v d) = setDisplay i v d := by
  unfold setDisplay
  rw [updateElem_updateElem]

theorem hide_error_message_of_some {d : Document} {j : Nat}
    (h : getErrorElement d = some j) :
    hide_error_message d = ⟨setDisplay j "none" d, none⟩ := by
  unfold getErrorElement at h
  unfold hide_error_message
  rw [h]

theorem hide_error_message_of_none {d : Document}
    (h : getErrorElement d = none) :
    hide_error_message d = ⟨d, some JSError.TypeError⟩ := by
  unfold getErrorElement at h
  unfold hide_error_message
  rw [h]

theorem getErrorElement_setDisplay (i : Nat) (v : String) (d : Document) :
    getErrorElement (setDisplay i v d) = getErrorElement d := by
  unfold getErrorElement
  rw [querySelectorAll_setDisplay]

theorem getElem?_nil_iff (l : List Nat) : l[0]? = none ↔ l = [] := by
  cases l <;> simp

theorem init_of_some {d : Document} {i : Nat} (h : getInputElement d = some i) :
    Superlists_init d =
      ⟨addEventListener i "keypress" Callback.hide_error_message
        (addEventListener i "click" Callback.hide_error_message d), none⟩ := by
  unfold getInputElement at h
  have h2 : (querySelectorAll inputSelector
      (addEventListener i "click" Callback.hide_error_message d))[0]? = some i := by
    rw [querySelectorAll_addEventListener]; exact h
  simp [Superlists_init, events_that_hide, forEach, hideErrorMessageOnEvent, h, h2]

theorem init_of_none {d : Document} (h : getInputElement d = none) :
    Superlists_init d = ⟨d, some JSError.TypeError⟩ := by
  unfold getInputElement at h
  simp [Superlists_init, events_that_hide, forEach, hideErrorMessageOnEvent, h]

theorem addEventListener_eq (i : Nat) (t : String) (cb : Callback) (d : Document) :
    addEventListener i t cb d = updateElem (addTo t cb) i d := rfl

theorem addTo_listeners_mem (t : String) (cb : Callback) (e : Element) :
    Listener.mk t cb ∈ (addTo t cb e).listeners := by
  unfold addTo
  by_cases h : Listener.mk t cb ∈ e.listeners
  · simp [h]
  · simp [h]

theorem addTo_of_mem {t : String} {cb : Callback} {e : Element}
    (h : Listener.mk t cb ∈ e.listeners) : addTo t cb e = e := by
  simp [addTo, h]

theorem addTo_listeners_sub (t : String) (cb : Callback) (e : Element) (l : Listener)
    (h : l ∈ e.listeners) : l ∈ (addTo t cb e).listeners := by
  unfold addTo
  by_cases hm : Listener.mk t cb ∈ e.listeners
  · simpa [hm] using h
  · simp [hm, h]

theorem addTo_twice (e : Element) :
    addTo "keypress" Callback.hide_error_message (addTo "click" Callback.hide_error_message
      (addTo "keypress" Callback.hide_error_message
        (addTo "click" Callback.hide_error_message e))) =
    addTo "keypress" Callback.hide_error_message
      (addTo "click" Callback.hide_error_message e) := by
  have h1 : Listener.mk "click" Callback.hide_error_message ∈
      (addTo "keypress" Callback.hide_error_message
        (addTo "click" Callback.hide_error_message e)).listeners :=
    addTo_listeners_sub _ _ _ _ (addTo_listeners_mem _ _ _)
  rw [addTo_of_mem h1, addTo_of_mem (addTo_listeners_mem _ _ _)]

theorem init_document_eq {d : Document} {i : Nat} (h : getInputElement d = some i) :
    (Superlists_init d).document =
      updateElem (fun e => addTo "keypress" Callback.hide_error_message
        (addTo "click" Callback.hide_error_message e)) i d := by
  rw [init_of_some h, addEventListener_eq, addEventListener_eq, updateElem_updateElem]

theorem getInputElement_init (d : Document) :
    getInputElement (Superlists_init d).document = getInputElement d := by
  cases h : getInputElement d with
  | none => rw [init_of_none h]; exact h
  | some i =>
    rw [init_of_some h]
    unfold getInputElement at *
    rw [querySelectorAll_addEventListener, querySelectorAll_addEventListener]; exact h

theorem getErrorElement_init (d : Document) :
    getErrorElement (Superlists_init d).document = getErrorElement d := by
  cases h : getInputElement d with
  | none => rw [init_of_none h]
  | some i =>
    rw [init_of_some h]
    unfold getErrorElement
    rw [querySelectorAll_addEventListener, querySelectorAll_addEventListener]

/-! ## Dispatch: fixed points and listener hits -/

theorem runListeners_fix (ev : String) {d : Document} (hfix : ∀ cb, invoke cb d = d) :
    ∀ ls : List Listener, runListeners ev ls d = d := by
  intro ls
  induction ls with
  | nil => rfl
  | cons l ls ih =>
    unfold runListeners
    by_cases h : l.type = ev
    · simp only [h, if_true, hfix]; exact ih
    · simp only [h, if_false]; exact ih

theorem dispatchOn_fix (ev : String) {d : Document} (hfix : ∀ cb, invoke cb d = d) :
    ∀ p : List Nat, dispatchOn ev p d = d := by
  intro p
  induction p with
  | nil => rfl
  | cons i rest ih =>
    unfold dispatchOn
    rw [runListeners_fix ev hfix]; exact ih

theorem runListeners_of_no_type (ev : String) (d : Document) :
    ∀ ls : List Listener, (∀ l ∈ ls, l.type ≠ ev) → runListeners ev ls d = d := by
  intro ls
  induction ls with
  | nil => intro _; rfl
  | cons l ls ih =>
    intro h
    unfold runListeners
    have hl : l.type ≠ ev := h l (List.mem_cons_self _ _)
    simp only [hl, if_false]
    exact ih (fun x hx => h x (List.mem_cons_of_mem _ hx))

theorem dispatchOn_of_no_type (ev : String) (d : Document)
    (h : ∀ k, ∀ l ∈ listenersOf d k, l.type ≠ ev) :
    ∀ p : List Nat, dispatchOn ev p d = d := by
  intro p
  induction p with
  | nil => rfl
  | cons i rest ih =>
    unfold dispatchOn
    rw [runListeners_of_no_type ev d _ (h i)]; exact ih

theorem dispatchEvent_of_no_type (ev : String) (t : Nat) (d : Document)
    (h : ∀ k, ∀ l ∈ listenersOf d k, l.type ≠ ev) : dispatchEvent ev t d = d :=
  dispatchOn_of_no_type ev d h _

theorem invoke_of_some {d : Document} {j : Nat} (h : getErrorElement d = some j)
    (cb : Callback) : invoke cb d = setDisplay j "none" d := by
  cases cb
  simp [invoke, Callback.run, hide_error_message_of_some h]

theorem invoke_hidden {d : Document} {j : Nat} (h : getErrorElement d = some j)
    (cb : Callback) : invoke cb (setDisplay j "none" d) = setDisplay j "none" d := by
  have hs : getErrorElement (setDisplay j "none" d) = some j := by
    rw [getErrorElement_setDisplay]; exact h
  rw [invoke_of_some hs, setDisplay_setDisplay]

theorem runListeners_hit (ev : String) {d : Document} {j : Nat}
    (h : getErrorElement d = some j) :
    ∀ ls : List Listener, (∃ l ∈ ls, l.type = ev) →
      runListeners ev ls d = setDisplay j "none" d := by
  intro ls
  induction ls with
  | nil => intro hex; obtain ⟨l, hl, _⟩ := hex; cases hl
  | cons a ls ih =>
    intro hex
    unfold runListeners
    by_cases ha : a.type = ev
    · simp only [ha, if_true]
      rw [invoke_of_some h]
      exact runListeners_fix ev (invoke_hidden h) ls
    · simp only [ha, if_false]
      apply ih
      obtain ⟨l, hl, hle⟩ := hex
      rcases List.mem_cons.mp hl with rfl | hl'
      · exact absurd hle ha
      · exact ⟨l, hl', hle⟩

theorem listenersOf_lt {d : Document} {i : Nat} {l : Listener}
    (h : l ∈ listenersOf d i) : i < d.elements.length := by
  unfold listenersOf at h
  cases he : d.elements[i]? with
  | none => rw [he] at h; cases h
  | some e => exact lt_length_of_getElem? he

theorem dispatchEvent_hit (ev : String) {d : Document} {i j : Nat}
    (h : getErrorElement d = some j) (hex : ∃ l ∈ listenersOf d i, l.type = ev) :
    dispatchEvent ev i d = setDisplay j "none" d := by
  have hi : i < d.elements.length := by
    obtain ⟨l, hl, _⟩ := hex
    exact listenersOf_lt hl
  unfold dispatchEvent
  obtain ⟨n, hn⟩ : ∃ n, d.elements.length = n + 1 := ⟨d.elements.length - 1, by omega⟩
  rw [hn]
  unfold eventPath dispatchOn
  rw [runListeners_hit ev h _ hex]
  exact dispatchOn_fix ev (invoke_hidden h) _

/-- In a document whose parents precede their children in document order, the path
from an element does not depend on the fuel once the fuel exceeds the element's
reference: the fuel `d.elements.length` of `dispatchEvent` yields the whole path. -/
theorem eventPath_fuel (d : Document)
    (hwf : ∀ (k : Nat) (e : Element) (p : Nat),
      d.elements[k]? = some e → e.parent = some p → p < k) :
    ∀ fuel i, i < fuel → eventPath d fuel i = eventPath d (i + 1) i := by
  intro fuel
  induction fuel using Nat.strong_induction_on with
  | _ n ih =>
    intro i hin
    cases n with
    | zero => omega
    | succ m =>
      unfold eventPath
      cases hp : (d.elements[i]?).bind (fun e => e.parent) with
      | none => rfl
      | some p =>
        obtain ⟨e, he, hep⟩ := Option.bind_eq_some.mp hp
        have hpi : p < i := hwf i e p he hep
        simp only
        rw [ih m (by omega) p (by omega)]
        by_cases him : i = m
        · subst him; rw [ih i (by omega) p hpi]
        · rw [ih i (by omega) p hpi]

theorem listenersOf_updateElem_self (f : Element → Element) {d : Document} {i : Nat}
    {e : Element} (h : d.elements[i]? = some e) :
    listenersOf (updateElem f i d) i = (f e).listeners := by
  have hi := lt_length_of_getElem? h
  simp [listenersOf, updateElem, h, hi]

theorem elements_updateElem_ne (f : Element → Element) (d : Document) {i k : Nat}
    (hk : k ≠ i) : (updateElem f i d).elements[k]? = d.elements[k]? := by
  unfold updateElem
  cases h : d.elements[i]? with
  | none => rfl
  | some e => simp [List.getElem?_set, Ne.symm hk]

theorem elements_updateElem_self (f : Element → Element) {d : Document} {i : Nat}
    {e : Element} (h : d.elements[i]? = some e) :
    (updateElem f i d).elements[i]? = some (f e) := by
  have hi := lt_length_of_getElem? h
  simp [updateElem, h, hi]

theorem length_updateElem (f : Element → Element) (i : Nat) (d : Document) :
    (updateElem f i d).elements.length = d.elements.length := by
  unfold updateElem
  cases h : d.elements[i]? with
  | none => rfl
  | some e => simp

theorem reported_updateElem (f : Element → Element) (i : Nat) (d : Document) :
    (updateElem f i d).reported = d.reported := by
  unfold updateElem
  cases h : d.elements[i]? with
  | none => rfl
  | some e => rfl

theorem getElem?_of_head {sel : Selector} {d : Document} {i : Nat}
    (h : (querySelectorAll sel d)[0]? = some i) :
    (∃ e, d.elements[i]? = some e ∧ sel.matchesElem e = true) ∧
      ∀ k, k < i → ∀ e, d.elements[k]? = some e → sel.matchesElem e = false := by
  have := matchingFrom_head sel d.elements 0 i h
  simpa using this.2

theorem displayOf_setDisplay {d : Document} {j : Nat} {e : Element} (v : String)
    (h : d.elements[j]? = some e) : displayOf (setDisplay j v d) j = some v := by
  unfold displayOf setDisplay
  rw [elements_updateElem_self _ h]; rfl

theorem listenersOf_nil_of_all {d : Document} (h : ∀ e ∈ d.elements, e.listeners = [])
    (k : Nat) : listenersOf d k = [] := by
  unfold listenersOf
  cases he : d.elements[k]? with
  | none => rfl
  | some e => exact h e (List.getElem?_mem he)

theorem listenersOf_updateElem_ne (f : Element → Element) (d : Document) {i k : Nat}
    (hk : k ≠ i) : listenersOf (updateElem f i d) k = listenersOf d k := by
  unfold listenersOf
  rw [elements_updateElem_ne f d hk]

theorem addTo_click_keypress {e : Element} (h : e.listeners = []) :
    addTo "keypress" Callback.hide_error_message
      (addTo "click" Callback.hide_error_message e) =
    { e with listeners := [⟨"click", Callback.hide_error_message⟩,
                           ⟨"keypress", Callback.hide_error_message⟩] } := by
  simp [addTo, h]

/-! ## The claims -/

/-- C1: on a document with an element matching `input[name="text"]` and an element
matching `.has-error`, `window.Superlists.initialize()` completes, and a "click" or
"keypress" event then triggered on the first matching input leaves the first
`.has-error` element with `style.display` equal to "none", whatever it was before. -/
theorem init_then_event_hides (d : Document) (i j : Nat) (ev : String)
    (hi : getInputElement d = some i) (hj : getErrorElement d = some j)
    (hev : ev = "click" ∨ ev = "keypress") :
    (Superlists_init d).thrown = none ∧
    (triggerEvent ev (getInputElement (Superlists_init d).document)
      (Superlists_init d).document).thrown = none ∧
    getErrorElement (triggerEvent ev (getInputElement (Superlists_init d).document)
      (Superlists_init d).document).document = some j ∧
    displayOf (triggerEvent ev (getInputElement (Superlists_init d).document)
      (Superlists_init d).document).document j = some "none" := by
  have hj' : getErrorElement (Superlists_init d).document = some j := by
    rw [getErrorElement_init]; exact hj
  obtain ⟨⟨e, he, _⟩, _⟩ := getElem?_of_head hi
  obtain ⟨⟨ej, hej, _⟩, _⟩ := getElem?_of_head hj
  have hls : ∃ l ∈ listenersOf (Superlists_init d).document i, l.type = ev := by
    rw [init_document_eq hi, listenersOf_updateElem_self _ he]
    rcases hev with rfl | rfl
    · exact ⟨⟨"click", Callback.hide_error_message⟩,
        addTo_listeners_sub _ _ _ _ (addTo_listeners_mem _ _ _), rfl⟩
    · exact ⟨⟨"keypress", Callback.hide_error_message⟩, addTo_listeners_mem _ _ _, rfl⟩
  have hex : ∃ x, (Superlists_init d).document.elements[j]? = some x := by
    rw [init_document_eq hi]
    by_cases hji : j = i
    · subst hji; exact ⟨_, elements_updateElem_self _ he⟩
    · exact ⟨ej, by rw [elements_updateElem_ne _ _ hji, hej]⟩
  obtain ⟨ex, hex2⟩ := hex
  refine ⟨by rw [init_of_some hi], ?_⟩
  rw [getInputElement_init, hi]
  simp only [triggerEvent]
  rw [dispatchEvent_hit ev hj' hls]
  refine ⟨trivial, ?_, ?_⟩
  · rw [getErrorElement_setDisplay]; exact hj'
  · exact displayOf_setDisplay "none" hex2

/-- Witness for C1 on the test fixture, with a "keypress" event (Scenario A). -/
theorem init_then_event_hides_witness :
    getInputElement fixture = some 1 ∧ getErrorElement fixture = some 2 ∧
    displayOf fixture 2 = some "block" ∧
    displayOf (triggerEvent "keypress" (getInputElement (Superlists_init fixture).document)
      (Superlists_init fixture).document).document 2 = some "none" :=
  ⟨by decide, by decide, by decide,
    (init_then_event_hides fixture 1 2 "keypress" (by decide) (by decide)
      (Or.inr rfl)).2.2.2⟩

/-- C2 as stated fails: on a document with no element matching `input[name="text"]`,
`window.Superlists.initialize()` raises. -/
theorem init_without_input_counterexample :
    querySelectorAll inputSelector emptyPage = [] ∧
    (Superlists_init emptyPage).thrown = some JSError.TypeError := by
  decide

/-- C2, amended: on every document with no element matching `input[name="text"]`,
`window.Superlists.initialize()` raises a TypeError at its first registration and
leaves the document as it was, so no listener is attached to any element. -/
theorem init_without_input_raises (d : Document)
    (h : querySelectorAll inputSelector d = []) :
    Superlists_init d = ⟨d, some JSError.TypeError⟩ := by
  apply init_of_none
  unfold getInputElement
  rw [h]; rfl

/-- Witness for the amended C2 on a page without an input. -/
theorem init_without_input_raises_witness :
    querySelectorAll inputSelector emptyPage = [] ∧
    Superlists_init emptyPage = ⟨emptyPage, some JSError.TypeError⟩ :=
  ⟨by decide, init_without_input_raises emptyPage (by decide)⟩

/-- C3: `hide_error_message()` raises exactly when no element of the document matches
`.has-error`; when at least one element matches it completes without raising. -/
theorem hide_raises_iff_no_match (d : Document) :
    ((hide_error_message d).thrown = some JSError.TypeError ↔
      querySelectorAll hasErrorSelector d = []) ∧
    ((hide_error_message d).thrown = none ↔ querySelectorAll hasErrorSelector d ≠ []) ∧
    (querySelectorAll hasErrorSelector d = [] ↔
      ∀ e ∈ d.elements, hasErrorSelector.matchesElem e = false) := by
  refine ⟨?_, ?_, matchingFrom_nil_iff _ _ _⟩
  · cases h : getErrorElement d with
    | none =>
      rw [hide_error_message_of_none h]
      simp [(getElem?_nil_iff _).mp h]
    | some j =>
      rw [hide_error_message_of_some h]
      unfold getErrorElement at h
      constructor
      · intro hc; cases hc
      · intro hc; rw [hc] at h; cases h
  · cases h : getErrorElement d with
    | none =>
      rw [hide_error_message_of_none h]
      simp [(getElem?_nil_iff _).mp h]
    | some j =>
      rw [hide_error_message_of_some h]
      unfold getErrorElement at h
      simp
      intro hc; rw [hc] at h; cases h

/-- C4: on a document without listeners, loading list.js leaves the document as it
is (it registers no listener), and an event of any type triggered afterwards on the
input element, or dispatched on any element, changes nothing: every element keeps
its `display`. -/
theorem load_registers_nothing (w : Window) (ev : String)
    (hnol : ∀ e ∈ w.document.elements, e.listeners = []) :
    (loadScript w).document = w.document ∧
    (∀ t, dispatchEvent ev t (loadScript w).document = w.document) ∧
    (triggerEvent ev (getInputElement (loadScript w).document)
      (loadScript w).document).document = w.document ∧
    (∀ k, displayOf (triggerEvent ev (getInputElement (loadScript w).document)
      (loadScript w).document).document k = displayOf w.document k) := by
  have hload : (loadScript w).document = w.document := rfl
  have hd : ∀ t, dispatchEvent ev t w.document = w.document := by
    intro t
    apply dispatchEvent_of_no_type
    intro k l hl
    rw [listenersOf_nil_of_all hnol k] at hl
    cases hl
  have ht : (triggerEvent ev (getInputElement w.document) w.document).document
      = w.document := by
    cases h : getInputElement w.document with
    | none => rfl
    | some i => simp only [triggerEvent]; exact hd i
  rw [hload]
  exact ⟨rfl, hd, ht, fun k => by rw [ht]⟩

/-- Witness for C4 on the test fixture, with a "keypress" event (Scenario B). -/
theorem load_registers_nothing_witness :
    (∀ e ∈ fixture.elements, e.listeners = []) ∧
    displayOf (triggerEvent "keypress"
      (getInputElement (loadScript ⟨fixture, none⟩).document)
      (loadScript ⟨fixture, none⟩).document).document 2 = some "block" :=
  ⟨by decide,
    ((load_registers_nothing ⟨fixture, none⟩ "keypress" (by decide)).2.2.2 2).trans
      (by decide)⟩

/-- C5 as stated fails: an element of zero width and zero height whose only client
rectangle is empty is reported visible, although it has no non-empty rectangle. -/
theorem isVisible_empty_rect_counterexample :
    isVisible (fun _ => ⟨0, 0, [⟨0, 0⟩]⟩) (some 0) = Except.ok true ∧
    isVisible_spec ⟨0, 0, [⟨0, 0⟩]⟩ = false :=
  ⟨rfl, by decide⟩

/-- C5, amended: for every element, `isVisible(element)` returns true exactly when
`offsetWidth` is non-zero, `offsetHeight` is non-zero, or `getClientRects()` returns
at least one rectangle (empty or not), and returns false otherwise. -/
theorem isVisible_iff (layout : Nat → Rendered) (i : Nat) :
    ∃ b, isVisible layout (some i) = Except.ok b ∧
      (b = true ↔ ((layout i).offsetWidth ≠ 0 ∨ (layout i).offsetHeight ≠ 0 ∨
        (layout i).clientRects ≠ [])) := by
  refine ⟨_, rfl, ?_⟩
  simp [Bool.or_eq_true, List.length_eq_zero, or_assoc]

/-- C6 as stated fails: `isVisible` applied to the absent result of
`getErrorElement()` raises instead of returning false. -/
theorem isVisible_absent_counterexample :
    getErrorElement emptyPage = none ∧
    isVisible (fun _ => ⟨0, 0, []⟩) (getErrorElement emptyPage)
      = Except.error JSError.TypeError :=
  ⟨by decide, rfl⟩

/-- C6, amended: `isVisible` applied to an absent element raises a TypeError: so it
does for the result of `getErrorElement()` on a document with no element matching
`.has-error`, and for the result of `getInputElement()` when that is absent. -/
theorem isVisible_absent_raises (layout : Nat → Rendered) (d : Document)
    (h : querySelectorAll hasErrorSelector d = []) :
    isVisible layout (getErrorElement d) = Except.error JSError.TypeError ∧
    isVisible layout none = Except.error JSError.TypeError ∧
    (getInputElement d = none →
      isVisible layout (getInputElement d) = Except.error JSError.TypeError) := by
  refine ⟨?_, rfl, ?_⟩
  · unfold getErrorElement
    rw [h]; rfl
  · intro hn; rw [hn]; rfl

/-- Witness for the amended C6 on a page without an error element. -/
theorem isVisible_absent_raises_witness :
    querySelectorAll hasErrorSelector emptyPage = [] ∧
    isVisible (fun _ => ⟨3, 4, []⟩) (getErrorElement emptyPage)
      = Except.error JSError.TypeError :=
  ⟨by decide, (isVisible_absent_raises (fun _ => ⟨3, 4, []⟩) emptyPage (by decide)).1⟩

/-- C7 as stated fails: on the test fixture the input's listener list after two
calls of `window.Superlists.initialize()` is the list after one call, with one
listener per event kind. -/
theorem init_twice_counterexample :
    getInputElement fixture = some 1 ∧
    listenersOf (Superlists_init (Superlists_init fixture).document).document 1 =
      listenersOf (Superlists_init fixture).document 1 ∧
    listenersOf (Superlists_init (Superlists_init fixture).document).document 1 =
      [⟨"click", Callback.hide_error_message⟩,
       ⟨"keypress", Callback.hide_error_message⟩] := by
  decide

/-- C7, amended: for every document with a matching input element, a second call of
`window.Superlists.initialize()` completes and leaves the document, and with it every
listener list, exactly as the first call left it: `addEventListener` does not add a
listener whose type and callback are already registered. On an input that had no
listener, `hide_error_message` is attached once per event kind after two calls. -/
theorem init_twice_same (d : Document) (i : Nat) (hi : getInputElement d = some i) :
    Superlists_init (Superlists_init d).document = Superlists_init d ∧
    (Superlists_init d).thrown = none ∧
    (listenersOf d i = [] →
      listenersOf (Superlists_init (Superlists_init d).document).document i =
        [⟨"click", Callback.hide_error_message⟩,
         ⟨"keypress", Callback.hide_error_message⟩]) := by
  have hi' : getInputElement (Superlists_init d).document = some i := by
    rw [getInputElement_init]; exact hi
  have htw : Superlists_init (Superlists_init d).document = Superlists_init d := by
    have h1 := init_of_some hi'
    have h2 := init_of_some hi
    rw [h1]
    have hdoc := init_document_eq hi
    rw [hdoc]
    rw [addEventListener_eq, addEventListener_eq, updateElem_updateElem,
      updateElem_updateElem]
    simp only [addTo_twice]
    rw [← hdoc, h2]
  obtain ⟨⟨e, he, _⟩, _⟩ := getElem?_of_head hi
  refine ⟨htw, by rw [init_of_some hi], ?_⟩
  intro hnil
  rw [htw, init_document_eq hi, listenersOf_updateElem_self _ he]
  have hel : e.listeners = [] := by
    simpa [listenersOf, he] using hnil
  rw [addTo_click_keypress hel]

/-- Witness for the amended C7 on the test fixture. -/
theorem init_twice_same_witness :
    getInputElement fixture = some 1 ∧
    Superlists_init (Superlists_init fixture).document = Superlists_init fixture :=
  ⟨by decide, (init_twice_same fixture 1 (by decide)).1⟩

/-- C8: `hide_error_message` is idempotent: on every document with an element matching
`.has-error`, the call completes, a second call in succession leaves the document as
the first call left it, and in that document the first `.has-error` element has
`display` "none". -/
theorem hide_idempotent (d : Document) (h : querySelectorAll hasErrorSelector d ≠ []) :
    (hide_error_message d).thrown = none ∧
    hide_error_message (hide_error_message d).document = hide_error_message d ∧
    ∃ j, getErrorElement d = some j ∧
      getErrorElement (hide_error_message d).document = some j ∧
      displayOf (hide_error_message d).document j = some "none" ∧
      displayOf (hide_error_message (hide_error_message d).document).document j
        = some "none" := by
  cases hj : getErrorElement d with
  | none => exact absurd ((getElem?_nil_iff _).mp hj) h
  | some j =>
    obtain ⟨⟨e, he, _⟩, _⟩ := getElem?_of_head hj
    have hj' : getErrorElement (setDisplay j "none" d) = some j := by
      rw [getErrorElement_setDisplay]; exact hj
    have h2 : hide_error_message (hide_error_message d).document = hide_error_message d := by
      rw [hide_error_message_of_some hj, hide_error_message_of_some hj',
        setDisplay_setDisplay]
    refine ⟨by rw [hide_error_message_of_some hj], h2, j, rfl, ?_, ?_, ?_⟩
    · rw [hide_error_message_of_some hj]; exact hj'
    · rw [hide_error_message_of_some hj]; exact displayOf_setDisplay "none" he
    · rw [h2, hide_error_message_of_some hj]; exact displayOf_setDisplay "none" he

/-- Witness for C8 on the test fixture. -/
theorem hide_idempotent_witness :
    querySelectorAll hasErrorSelector fixture ≠ [] ∧
    hide_error_message (hide_error_message fixture).document = hide_error_message fixture :=
  ⟨by decide, (hide_idempotent fixture (by decide)).2.1⟩

/-- C9: on a document with one or more elements matching `.has-error`, of which `j` is
the first in document order, `hide_error_message` completes and changes only the
`display` of element `j`: that element stays in place with every other field as it
was, every other element (a later `.has-error` element included) is unchanged, the
number and order of elements is unchanged, and so is every listener list. -/
theorem hide_changes_only_display (d : Document) (j : Nat)
    (hj : getErrorElement d = some j) :
    (hide_error_message d).thrown = none ∧
    (∃ e, d.elements[j]? = some e ∧ hasErrorSelector.matchesElem e = true ∧
      (hide_error_message d).document.elements[j]? =
        some { e with style := { e.style with display := "none" } }) ∧
    (∀ k, k < j → ∀ e, d.elements[k]? = some e → hasErrorSelector.matchesElem e = false) ∧
    (∀ k, k ≠ j → (hide_error_message d).document.elements[k]? = d.elements[k]?) ∧
    (hide_error_message d).document.elements.length = d.elements.length ∧
    (∀ k, listenersOf (hide_error_message d).document k = listenersOf d k) ∧
    (hide_error_message d).document.reported = d.reported := by
  obtain ⟨⟨e, he, hme⟩, hfirst⟩ := getElem?_of_head hj
  rw [hide_error_message_of_some hj]
  refine ⟨rfl, ⟨e, he, hme, ?_⟩, hfirst, ?_, ?_, ?_, ?_⟩
  · exact elements_updateElem_self _ he
  · intro k hk; exact elements_updateElem_ne _ d hk
  · exact length_updateElem _ _ _
  · intro k
    by_cases hk : k = j
    · subst hk
      unfold setDisplay
      rw [listenersOf_updateElem_self _ he]
      simp [listenersOf, he]
    · exact listenersOf_updateElem_ne _ d hk
  · exact reported_updateElem _ _ _

/-- Witness for C9 on a document with two error elements: the second keeps its
style. -/
theorem hide_changes_only_display_witness :
    getErrorElement twoErrors = some 0 ∧
    (hide_error_message twoErrors).document.elements[1]? = twoErrors.elements[1]? :=
  ⟨by decide, (hide_changes_only_display twoErrors 0 (by decide)).2.2.2.1 1 (by decide)⟩

/-- C10: on a document with an element matching `input[name="text"]`, of which `i` is
the first in document order, and with no listeners registered,
`window.Superlists.initialize()` completes and changes only the listener list of
element `i`, which becomes `hide_error_message` for "click" and for "keypress": every
other element (a later matching input included) and every style is unchanged, and an
event of any other type dispatched on the input afterwards changes nothing. -/
theorem init_registers_click_keypress (d : Document) (i : Nat)
    (hi : getInputElement d = some i) (hnol : ∀ e ∈ d.elements, e.listeners = []) :
    (Superlists_init d).thrown = none ∧
    (∃ e, d.elements[i]? = some e ∧ inputSelector.matchesElem e = true ∧
      (Superlists_init d).document.elements[i]? =
        some { e with listeners := [⟨"click", Callback.hide_error_message⟩,
                                    ⟨"keypress", Callback.hide_error_message⟩] }) ∧
    (∀ k, k < i → ∀ e, d.elements[k]? = some e → inputSelector.matchesElem e = false) ∧
    (∀ k, k ≠ i → (Superlists_init d).document.elements[k]? = d.elements[k]?) ∧
    (Superlists_init d).document.elements.length = d.elements.length ∧
    (∀ k, displayOf (Superlists_init d).document k = displayOf d k) ∧
    (Superlists_init d).document.reported = d.reported ∧
    (∀ ev, ev ≠ "click" → ev ≠ "keypress" →
      dispatchEvent ev i (Superlists_init d).document = (Superlists_init d).document) := by
  obtain ⟨⟨e, he, hme⟩, hfirst⟩ := getElem?_of_head hi
  have hel : e.listeners = [] := hnol e (List.getElem?_mem he)
  have hdoc := init_document_eq hi
  have hself : (Superlists_init d).document.elements[i]? =
      some { e with listeners := [⟨"click", Callback.hide_error_message⟩,
                                  ⟨"keypress", Callback.hide_error_message⟩] } := by
    rw [hdoc, elements_updateElem_self _ he, addTo_click_keypress hel]
  have hne : ∀ k, k ≠ i → (Superlists_init d).document.elements[k]? = d.elements[k]? := by
    intro k hk; rw [hdoc]; exact elements_updateElem_ne _ d hk
  refine ⟨by rw [init_of_some hi], ⟨e, he, hme, hself⟩, hfirst, hne, ?_, ?_, ?_, ?_⟩
  · rw [hdoc]; exact length_updateElem _ _ _
  · intro k
    unfold displayOf
    by_cases hk : k = i
    · subst hk; rw [hself, he]; rfl
    · rw [hne k hk]
  · rw [hdoc]; exact reported_updateElem _ _ _
  · intro ev h1 h2
    apply dispatchEvent_of_no_type
    intro k l hl
    by_cases hk : k = i
    · subst hk
      simp only [listenersOf, hself] at hl
      simp at hl
      rcases hl with rfl | rfl
      · exact fun h => h1 h.symm
      · exact fun h => h2 h.symm
    · simp only [listenersOf, hne k hk] at hl
      have := listenersOf_nil_of_all hnol k
      simp only [listenersOf] at this
      rw [this] at hl
      cases hl

/-- Witness for C10 on the test fixture: a "focus" event changes nothing. -/
theorem init_registers_click_keypress_witness :
    getInputElement fixture = some 1 ∧ (∀ e ∈ fixture.elements, e.listeners = []) ∧
    dispatchEvent "focus" 1 (Superlists_init fixture).document
      = (Superlists_init fixture).document :=
  ⟨by decide, by decide,
    (init_registers_click_keypress fixture 1 (by decide) (by decide)).2.2.2.2.2.2.2
      "focus" (by decide) (by decide)⟩

end Superlists
